import Mathlib

/-!
Verification of the research-resolution engine of the ai-personalization
repository, as specified in spec.md.

The core under verification is `process_company` in src/main.py (the
StrategyResolver / CompanyPipeline of the spec), its helpers
(`extract_domain`, `scrape_page_content`, `get_video_id`,
`get_youtube_transcript`), the completion wrapper
`AIAssistantService.get_completion` in src/services/ai_assistant_service.py,
and the result cache (`cache_result` / `get_cached_result`) in
src/aiwrite-old-code-for-reference.py.

Strings are modelled by Lean `String`, with all character-level
manipulation done on `String.data` (`List Char`); one `Char` corresponds
to one Python character, so Python `len` is `List.length` of the data.
External collaborators (the search provider, the page/transcript fetchers,
the completion model, the on-disk cache store and the clock) are modelled
as explicit function parameters, exactly as the spec treats them
(abstract deterministic interfaces).
-/

set_option maxRecDepth 100000

namespace AIPers

/-! ### Character-level string helpers (models of the Python string ops used) -/

/-- Test `listHasPre pat s`: `pat` is a leading segment of `s`. -/
def listHasPre : List Char → List Char → Bool
  | [], _ => true
  | _ :: _, [] => false
  | p :: ps, c :: cs => p == c && listHasPre ps cs

/-- Test `listHasSub pat s`: `pat` occurs as a contiguous segment of `s`
(model of Python's `pat in s` on strings). -/
def listHasSub (pat : List Char) : List Char → Bool
  | [] => listHasPre pat []
  | c :: cs => listHasPre pat (c :: cs) || listHasSub pat cs

/-- Python `pat in s` (substring test). -/
def strContains (s pat : String) : Bool :=
  listHasSub pat.data s.data

/-- Python `s.startswith(pat)`. -/
def pyStartsWith (s pat : String) : Bool :=
  listHasPre pat.data s.data

/-- The whitespace characters stripped by Python `str.strip()`.
(Only the ASCII whitespace set matters for the strings this program
manipulates; Python also strips other Unicode space characters.) -/
def isPyWhitespace (c : Char) : Bool :=
  c == ' ' || c == '\t' || c == '\n' || c == '\r' || c == '\x0b' || c == '\x0c'

/-- Python `s.strip()`. -/
def pyStrip (s : String) : String :=
  ⟨((s.data.dropWhile isPyWhitespace).reverse.dropWhile isPyWhitespace).reverse⟩

/-- Python `s.upper()` (ASCII; the program only upper-cases model output to
test for the `NO:` refusal marker, where only ASCII letters are involved). -/
def pyUpper (s : String) : String :=
  ⟨s.data.map Char.toUpper⟩

/-- Python `s.lower()` (ASCII, used on extracted domain names). -/
def pyLower (s : String) : String :=
  ⟨s.data.map Char.toLower⟩

/-- Python `s[:n]` (first `n` characters). -/
def pyTake (s : String) (n : Nat) : String :=
  ⟨s.data.take n⟩

/-- Python `s[n:]` (drop the first `n` characters). -/
def pyDrop (s : String) (n : Nat) : String :=
  ⟨s.data.drop n⟩

/-- Python `len(s)`. -/
def pyLen (s : String) : Nat :=
  s.data.length

/-- Replacement core for Python `s.replace(pat, new)`: scans left to right,
replacing non-overlapping occurrences.  `skip` counts pattern characters
already consumed by a match.  Only called with non-empty `pat`. -/
def replGo (pat new : List Char) : Nat → List Char → List Char
  | _, [] => []
  | k + 1, _ :: cs => replGo pat new k cs
  | 0, c :: cs =>
    if listHasPre pat (c :: cs) then new ++ replGo pat new (pat.length - 1) cs
    else c :: replGo pat new 0 cs

/-- Python `s.replace(pat, new)` for non-empty `pat`. -/
def pyReplace (s pat new : String) : String :=
  ⟨replGo pat.data new.data 0 s.data⟩

/-- Split core for Python `s.split(sep)`: scans left to right, cutting at
non-overlapping occurrences of `sep`.  Only called with non-empty `sep`. -/
def splitGo (sep : List Char) : Nat → List Char → List (List Char)
  | _, [] => [[]]
  | k + 1, _ :: cs => splitGo sep k cs
  | 0, c :: cs =>
    if listHasPre sep (c :: cs) then [] :: splitGo sep (sep.length - 1) cs
    else match splitGo sep 0 cs with
      | [] => [[c]]
      | part :: parts => (c :: part) :: parts

/-- Python `s.split(sep)` for non-empty `sep`. -/
def pySplit (s sep : String) : List String :=
  (splitGo sep.data 0 s.data).map fun l => ⟨l⟩

/-- The suffix of `s` strictly after the first occurrence of `pat`
(`none` when `pat` does not occur).  Used to model `str.partition`-style
scans inside `urlparse` and the domain regex. -/
def afterSub (pat : List Char) : List Char → Option (List Char)
  | [] => if listHasPre pat [] then some [] else none
  | c :: cs =>
    if listHasPre pat (c :: cs) then some (List.drop pat.length (c :: cs))
    else afterSub pat cs

/-! ### `extract_domain` (src/main.py lines 27-30)

`re.search(r'https{0,1}://(?:www\.)?([^/]+)', url)`, group 1 lower-cased;
empty/NaN input short-circuits to `''`.  The matcher below implements the
regex with its backtracking on the optional `s` and the optional `www.`
group (all quantifiers here are greedy, so the `s` and `www.` branches are
tried first). -/

/-- Match `[^/]+` at the head: the maximal non-empty run of non-`'/'` characters,
`none` when the first character is `'/'` or the input is empty. -/
def takeNonSlash (cs : List Char) : Option (List Char) :=
  let g := cs.takeWhile (fun c => !(c == '/'))
  if g.isEmpty then none else some g

/-- Match `(?:www\.)?([^/]+)` returning group 1: try consuming `www.`
first (greedy), fall back to not consuming it. -/
def matchAfterScheme (cs : List Char) : Option (List Char) :=
  match cs with
  | 'w' :: 'w' :: 'w' :: '.' :: rest =>
    (match takeNonSlash rest with
     | some g => some g
     | none => takeNonSlash cs)
  | _ => takeNonSlash cs

/-- Match `https{0,1}://(?:www\.)?([^/]+)` anchored at the head of `cs`,
returning group 1. -/
def matchDomainAt (cs : List Char) : Option (List Char) :=
  match cs with
  | 'h' :: 't' :: 't' :: 'p' :: rest =>
    (match rest with
     | 's' :: ':' :: '/' :: '/' :: r => matchAfterScheme r
     | ':' :: '/' :: '/' :: r => matchAfterScheme r
     | _ => none)
  | _ => none

/-- Model of `re.search`: first position (left to right) where the pattern matches. -/
def searchDomain : List Char → Option (List Char)
  | [] => none
  | c :: cs =>
    match matchDomainAt (c :: cs) with
    | some g => some g
    | none => searchDomain cs

/-- src/main.py `extract_domain`: `''` for missing/blank input, else the
regex group lower-cased, `''` when the regex does not match.  (A `NaN`
website cell, like a missing one, is modelled by the empty string: both
take the early-return branch.) -/
def extract_domain (url : String) : String :=
  if pyStrip url == "" then ""
  else match searchDomain url.data with
    | some g => pyLower ⟨g⟩
    | none => ""

/-! ### `urlparse`-based URL classification (src/main.py lines 44-51)

`get_video_id` consults `urlparse(url).hostname`, `.query` and `.path`.
The model below covers absolute URLs of the shape `scheme://netloc...`,
which is the shape of every search-result URL the resolver handles:
the netloc is what follows the first `"://"` up to the first of
`/ ? #`; the hostname is the netloc with any userinfo (`...@`) and port
(`:...`) removed, lower-cased, `none` when empty.  For a URL with no
hostname the source's `"youtube.com" in parsed_url.hostname` raises
`TypeError` (`hostname` is `None`); such URLs do not occur as search
results and the model returns `none` (no video id) there. -/

def netlocOf (url : String) : List Char :=
  match afterSub "://".data url.data with
  | none => []
  | some rest => rest.takeWhile fun c => !(c == '/') && !(c == '?') && !(c == '#')

def hostnameOf (url : String) : Option String :=
  let nl := netlocOf url
  let afterAt := if nl.contains '@' then (nl.reverse.takeWhile (fun c => !(c == '@'))).reverse else nl
  let host := afterAt.takeWhile fun c => !(c == ':')
  if host.isEmpty then none else some ⟨host.map Char.toLower⟩

/-- Computes `urlparse(url).query`: after the first `'?'` of the pre-fragment part. -/
def queryOf (url : String) : List Char :=
  match afterSub "?".data (url.data.takeWhile fun c => !(c == '#')) with
  | none => []
  | some q => q

/-- Computes `urlparse(url).path` for URLs with a netloc: from the first `'/'`
after the netloc up to the first of `? #`. -/
def pathOf (url : String) : List Char :=
  match afterSub "://".data url.data with
  | none => []
  | some rest =>
    (rest.dropWhile fun c => !(c == '/') && !(c == '?') && !(c == '#')).takeWhile
      fun c => !(c == '?') && !(c == '#')

/-- Model of `parse_qs(query).get("v")` followed by `[0]`: the first `v=value`
field with a non-empty value (`parse_qs` drops blank values by default and
skips fields without `'='`; percent-decoding is not modelled — video ids
contain no escapes). -/
def parse_qs_v (query : List Char) : Option String :=
  (splitGo "&".data 0 query).findSome? fun f =>
    match afterSub "=".data f with
    | none => none
    | some v =>
      if f.takeWhile (fun c => !(c == '=')) = "v".data && !v.isEmpty then some ⟨v⟩
      else none

/-- src/main.py `get_video_id`. -/
def get_video_id (url : String) : Option String :=
  match hostnameOf url with
  | none => none
  | some h =>
    if strContains h "youtube.com" then parse_qs_v (queryOf url)
    else if strContains h "youtu.be" then some ⟨(pathOf url).drop 1⟩
    else none

/-! ### Data model (spec §3, read off the source) -/

/-- A row of the Companies tab as consumed by `process_company` and the
main loop: `company.get('Company Name')`, `company.get('Website URL')`,
`company.get('Company LinkedIn URL', '')`.  A missing or `None` cell is
modelled by `""` (both are falsy in every test the source applies). -/
structure Company where
  name : String
  websiteUrl : String
  linkedinUrl : String
deriving DecidableEq

/-- A row of the Research tab: `strategy.get('Query')`,
`strategy.get('Research Prompt')`; `""` models a missing value. -/
structure Strategy where
  query : String
  researchPrompt : String
deriving DecidableEq

/-- The spec's ResearchOutcome (§3), read off `process_company`'s state:
`fact`/`source_url` are `research_summary or ''` / `source_url or ''`;
`found` is the truthiness of `research_summary` (the condition that gates
the personalization step and the success status); `confidence` follows
`found` (the legacy `ResearchResult` sets `confidence=True` exactly on the
successful branch). -/
structure ResearchOutcome where
  fact : String
  source_url : String
  confidence : Bool
  found : Bool
deriving DecidableEq

/-- Truthiness of the `research_summary` variable: `None` and `''` are
falsy, any other string truthy. -/
def pyTruthy : Option String → Bool
  | none => false
  | some s => !(s == "")

/-! ### External collaborators (spec §6), as deterministic stubs -/

/-- The completion model behind `AIAssistantService.get_completion`
(src/services/ai_assistant_service.py): for a request
(user prompt, system prompt, model, max_tokens) it either yields the first
choice's `message.content`, yields no choices, or raises one of the three
caught exception classes. -/
inductive ModelResponse where
  | choices (content : String)
  | noChoices
  | rateLimited
  | apiFailure
  | otherFailure
deriving DecidableEq

/-- The deterministic external services `process_company` calls through
(`services['search']`, the newspaper/transcript fetchers inside the two
content helpers, and the OpenAI client inside `get_completion`).
`search` returns the parsed Apify pages, each page modelled by its
`organicResults` url list (`""` models a result record with a missing
url); `fetchPage url` is the downloaded article text (`none` models a
newspaper exception); `fetchTranscript vid` is the already-joined
transcript text (`none` models a transcript-API exception). -/
structure Services where
  search : String → List (List String)
  fetchPage : String → Option String
  fetchTranscript : String → Option String
  respond : String → String → String → Nat → ModelResponse

/-! ### `AIAssistantService.get_completion`
(src/services/ai_assistant_service.py lines 16-52) -/

def REFUSAL_INSTRUCTION : String :=
  "\nIf you cannot fulfill the request or find the required information, you MUST respond with only the word: NO"

/-- Model of `get_completion`: appends the refusal instruction to the system
prompt, calls the model, and post-processes: a stripped response whose
upper-casing starts with `NO:` becomes `AI_REFUSAL (<response>)`; any
other response has double quotes removed and is stripped again; missing
choices and the three caught exceptions become `Error: ...` sentinel
strings.  (The `client not initialized` branch is unreachable — the
constructor always sets the client — and is omitted.) -/
def get_completion (respond : String → String → String → Nat → ModelResponse)
    (userPrompt systemPrompt model : String) (maxTokens : Nat) : String :=
  match respond userPrompt (systemPrompt ++ REFUSAL_INSTRUCTION) model maxTokens with
  | .choices content =>
    let generated := pyStrip content
    if pyStartsWith (pyUpper generated) "NO:" then "AI_REFUSAL (" ++ generated ++ ")"
    else pyStrip (pyReplace generated "\"" "")
  | .noChoices => "Error: No response from AI."
  | .rateLimited => "Error: Rate limit exceeded."
  | .apiFailure => "Error: OpenAI API error."
  | .otherFailure => "Error: An unexpected error occurred."

/-! ### Content helpers (src/main.py lines 32-60) -/

/-- Model of `scrape_page_content`: article text truncated to 7000 characters,
`None` on any scraping exception. -/
def scrape_page_content (fetchPage : String → Option String) (url : String) :
    Option String :=
  (fetchPage url).map fun t => pyTake t 7000

/-- Model of `get_youtube_transcript`: the joined transcript text truncated to 7000
characters, `None` on any exception. -/
def get_youtube_transcript (fetchTranscript : String → Option String) (vid : String) :
    Option String :=
  (fetchTranscript vid).map fun t => pyTake t 7000

/-- The candidate-content step of `process_company` (lines 100-108):
classify the url; a truthy video id fetches a transcript, otherwise the
page is scraped. -/
def contentOf (S : Services) (url : String) : Option String :=
  match get_video_id url with
  | some v =>
    if v == "" then scrape_page_content S.fetchPage url
    else get_youtube_transcript S.fetchTranscript v
  | none => scrape_page_content S.fetchPage url

/-! ### The strategy × candidate loop (src/main.py lines 73-127) -/

def SUMMARY_MODEL : String := "gpt-3.5-turbo"
def PERSONALIZATION_MODEL : String := "gpt-4-turbo-preview"
def SUMMARY_SYSTEM_PROMPT : String :=
  "You are a research assistant. Analyze the provided text (which could be an article or a video transcript) and extract information precisely according to the user\x27s instructions."
def PERSONALIZATION_SYSTEM_PROMPT : String :=
  "You are an expert at writing natural, personalized outreach messages."

/-- The summary user prompt (line 116). -/
def userPromptFor (researchPrompt content : String) : String :=
  researchPrompt ++ "\n\nContent:\n---\n" ++ content ++ "\n---"

/-- The summary the resolver obtains for a given research prompt and
candidate content. -/
def summaryFor (S : Services) (researchPrompt content : String) : String :=
  get_completion S.respond (userPromptFor researchPrompt content)
    SUMMARY_SYSTEM_PROMPT SUMMARY_MODEL 200

/-- The acceptance test of lines 121 and 149:
`"Error:" not in summary and summary != "AI_REFUSAL"`. -/
def acceptSummary (summary : String) : Bool :=
  !(strContains summary "Error:") && !(summary == "AI_REFUSAL")

/-- Observable calls to the two rate-limited providers, recorded in the
order the source makes them. -/
inductive Event where
  | searchCall (query : String)
  | summarizeCall (userPrompt : String) (content : String)
deriving DecidableEq

/-- The inner candidate loop (lines 94-127) over
`search_results[0]['organicResults'][:3]`, threading the
`research_summary` / `source_url` variables and recording summarizer
calls.  Mirrors the source statement by statement: break on a truthy
summary, skip falsy urls, skip missing/short content, adopt an accepted
summary together with its url and break, otherwise move on. -/
def runCandidates (S : Services) (researchPrompt : String) :
    List String → Option String → Option String →
    Option String × Option String × List Event
  | [], rs, su => (rs, su, [])
  | url :: rest, rs, su =>
    if pyTruthy rs then (rs, su, [])
    else if url == "" then runCandidates S researchPrompt rest rs su
    else match contentOf S url with
      | none => runCandidates S researchPrompt rest rs su
      | some c =>
        if c.data.length < 150 then runCandidates S researchPrompt rest rs su
        else
          let s := summaryFor S researchPrompt c
          if acceptSummary s then
            (some s, some url, [.summarizeCall (userPromptFor researchPrompt c) c])
          else
            let r := runCandidates S researchPrompt rest rs su
            (r.1, r.2.1, .summarizeCall (userPromptFor researchPrompt c) c :: r.2.2)

/-- The outer strategy loop (lines 77-127): break on a truthy summary,
skip strategies with a missing query or prompt, skip when the extracted
domain is falsy (this check precedes query formatting and does not
inspect the template), otherwise search and run the candidate loop on the
first page's top three organic results, recording the search call. -/
def runStrategies (S : Services) (company : Company) :
    List Strategy → Option String → Option String →
    Option String × Option String × List Event
  | [], rs, su => (rs, su, [])
  | strat :: rest, rs, su =>
    if pyTruthy rs then (rs, su, [])
    else if strat.query == "" || strat.researchPrompt == "" then
      runStrategies S company rest rs su
    else
      let domain := extract_domain company.websiteUrl
      if domain == "" then runStrategies S company rest rs su
      else
        -- `strategy_query.format(company=company_name, domain=domain)`:
        -- substitution of the two configured placeholders.  (On a template
        -- using any other placeholder `str.format` raises — a fatal
        -- configuration error per spec §7, outside this model.)
        let q := pyReplace (pyReplace strat.query "{company}" company.name) "{domain}" domain
        match S.search q with
        | [] =>
          let r := runStrategies S company rest rs su
          (r.1, r.2.1, .searchCall q :: r.2.2)
        | page0 :: _ =>
          if page0.isEmpty then
            let r := runStrategies S company rest rs su
            (r.1, r.2.1, .searchCall q :: r.2.2)
          else
            let r1 := runCandidates S strat.researchPrompt (page0.take 3) rs su
            let r2 := runStrategies S company rest r1.1 r1.2.1
            (r2.1, r2.2.1, .searchCall q :: (r1.2.2 ++ r2.2.2))

/-- The research phase of `process_company` started from
`research_summary = None`, `source_url = None` (lines 73-74). -/
def resolveEv (S : Services) (company : Company) (strategies : List Strategy) :
    Option String × Option String × List Event :=
  runStrategies S company strategies none none

/-- Model of `resolve`, StrategyResolver's terminal artifact, assembled from the
loop state exactly as the source does (`research_summary or ''`,
`source_url or ''`, truthiness of `research_summary` as `found` and
`confidence`). -/
def resolve (S : Services) (company : Company) (strategies : List Strategy) :
    ResearchOutcome :=
  let r := resolveEv S company strategies
  { fact := (r.1.getD "")
    source_url := (r.2.1.getD "")
    confidence := pyTruthy r.1
    found := pyTruthy r.1 }

/-! ### Personalization and the output record
(src/main.py lines 129-172 and the main loop lines 216-251) -/

def STATUS_PERSONALIZED : String := "✓ Personalized"
def STATUS_PERS_FAILED : String := "⚠️ Personalization Failed"
def STATUS_NO_SOURCE : String := "❌ No source summarized"

/-- The dictionary `process_company` returns (lines 167-172). -/
structure ProcessResult where
  research_summary : String
  source_url : String
  personalized_message : String
  status : String
deriving DecidableEq

/-- `process_company`: research loop, then on a truthy summary the
personalization call (whose response passes the same accept test), else
the no-source status.  The `{name}`-greeting block inside the success
branch is a `pass` in the source and has no effect. -/
def process_company (S : Services) (template masterPrompt : String)
    (company : Company) (strategies : List Strategy) : ProcessResult :=
  let r := resolveEv S company strategies
  let rs := r.1
  let su := r.2.1
  if pyTruthy rs then
    let finalPrompt :=
      masterPrompt ++ "\n\nHere is the base message template to start with:\n\x27" ++
        template ++ "\x27\n\nHere is the research summary you must incorporate:\n\x27" ++
        rs.getD "" ++ "\x27"
    let pm := get_completion S.respond finalPrompt PERSONALIZATION_SYSTEM_PROMPT
      PERSONALIZATION_MODEL 500
    if acceptSummary pm then
      { research_summary := rs.getD "", source_url := su.getD ""
        personalized_message := pm, status := STATUS_PERSONALIZED }
    else
      { research_summary := rs.getD "", source_url := su.getD ""
        personalized_message := "", status := STATUS_PERS_FAILED }
  else
    { research_summary := rs.getD "", source_url := su.getD ""
      personalized_message := "", status := STATUS_NO_SOURCE }

/-- The row written to the Output tab (spec's OutputRecord). -/
structure OutputRecord where
  linkedin_url : String
  website_url : String
  company_name : String
  research_summary : String
  source_url : String
  template : String
  personalized_message : String
  status : String
deriving DecidableEq

def BASE_QUESTION : String :=
  "What’s the process typically look like to become an approved vendor for retail fixtures or millwork?"

def GREETING : String := "{Name}, good to connect. "

/-- The per-company body of the main loop (lines 223-248): the
`{Name}`-greeting repair on personalized messages, then the output row.
(`parts[1]` of the split always exists there because the separator was
just found in the message; `getD 1 ""` is that element.) -/
def outputRowFor (S : Services) (template masterPrompt : String)
    (strategies : List Strategy) (company : Company) : OutputRecord :=
  let r := process_company S template masterPrompt company strategies
  let fm0 := r.personalized_message
  let fm :=
    if r.status == STATUS_PERSONALIZED && !(pyStartsWith fm0 "{Name}") then
      if strContains fm0 "good to connect." then
        GREETING ++ pyStrip ((pySplit fm0 "good to connect.").getD 1 "")
      else
        GREETING ++ fm0 ++ " " ++ BASE_QUESTION
    else fm0
  { linkedin_url := company.linkedinUrl
    website_url := company.websiteUrl
    company_name := company.name
    research_summary := r.research_summary
    source_url := r.source_url
    template := template
    personalized_message := if r.status == STATUS_PERSONALIZED then fm else ""
    status := r.status }

/-- The main company loop (lines 213-251): the master prompt is made
generic once, rows missing a name or website are skipped (no record),
every other company is processed independently and yields exactly one
output row.  The sheet write and the sleep are external side effects with
no bearing on the records. -/
def runPipeline (S : Services) (template masterPromptRaw : String)
    (companies : List Company) (strategies : List Strategy) : List OutputRecord :=
  let masterPrompt := pyReplace masterPromptRaw "{Name}" "the recipient"
  (companies.filter fun c => !(c.name == "") && !(c.websiteUrl == "")).map
    (outputRowFor S template masterPrompt strategies)

/-! ### The result cache
(src/aiwrite-old-code-for-reference.py lines 426-467)

The cache directory is modelled as a map from file keys to entries; the
key for a company is produced by an abstract stable hash (`md5` hexdigest
in the source) applied identically by reads and writes; the clock is an
explicit integer timestamp in seconds (`datetime` differences compare as
exact time deltas; `timedelta(days=30)` is `30 * 86400` seconds). -/

/-- The legacy `ResearchResult` dataclass. -/
structure ResearchResult where
  fact : String
  source_url : String
  confidence : Bool
deriving DecidableEq

/-- One cached JSON file: the three result fields plus the write-time
timestamp (ISO round-trips to the same instant). -/
structure CacheEntry where
  fact : String
  source_url : String
  confidence : Bool
  timestamp : Int
deriving DecidableEq

def CACHE_EXPIRY_DAYS : Int := 30

def SECONDS_PER_DAY : Int := 86400

/-- Model of `cache_result`: write (overwriting) the entry for the company's key
with the current timestamp. -/
def cache_result (hashKey : String → String) (store : String → Option CacheEntry)
    (companyName : String) (result : ResearchResult) (now : Int) :
    String → Option CacheEntry :=
  fun f =>
    if f = hashKey companyName then
      some { fact := result.fact, source_url := result.source_url
             confidence := result.confidence, timestamp := now }
    else store f

/-- Model of `get_cached_result`: the stored result if the file exists and
`now - timestamp < timedelta(days=CACHE_EXPIRY_DAYS)`, else `None`
(a missing file, an expired entry and a read error all return `None`). -/
def get_cached_result (hashKey : String → String) (store : String → Option CacheEntry)
    (companyName : String) (now : Int) : Option ResearchResult :=
  match store (hashKey companyName) with
  | none => none
  | some e =>
    if now - e.timestamp < CACHE_EXPIRY_DAYS * SECONDS_PER_DAY then
      some { fact := e.fact, source_url := e.source_url, confidence := e.confidence }
    else none

/-! ### Specification-side resolver (spec §4.1, P1/P5)

A second definition, following the spec's words rather than the source:
resolution is a flat scan over the applicable (strategy, candidate) pairs
— strategies in order, each contributing its first page's top three
non-empty candidate urls in provider order — and the outcome is produced
by the first pair whose candidate yields an accepted summary, with no
state carried between pairs. -/

/-- Whether one (research prompt, candidate url) pair yields a usable
outcome, judged in isolation: content present and long enough, summary
accepted. -/
def pairResult (S : Services) (researchPrompt url : String) :
    Option (String × String) :=
  match contentOf S url with
  | none => none
  | some c =>
    if c.data.length < 150 then none
    else
      let s := summaryFor S researchPrompt c
      if acceptSummary s then some (s, url) else none

/-- The (prompt, url) pairs one strategy contributes to the scan. -/
def strategyPairs (S : Services) (company : Company) (strat : Strategy) :
    List (String × String) :=
  if strat.query == "" || strat.researchPrompt == "" then []
  else
    let domain := extract_domain company.websiteUrl
    if domain == "" then []
    else
      let q := pyReplace (pyReplace strat.query "{company}" company.name) "{domain}" domain
      match S.search q with
      | [] => []
      | page0 :: _ =>
        ((page0.take 3).filter fun u => !(u == "")).map fun u => (strat.researchPrompt, u)

/-- All pairs, in scan order. -/
def allPairs (S : Services) (company : Company) : List Strategy → List (String × String)
  | [] => []
  | strat :: rest => strategyPairs S company strat ++ allPairs S company rest

/-- The spec's `resolve`: the outcome of the first succeeding pair, or
the all-empty not-found outcome. -/
def specResolve (S : Services) (company : Company) (strategies : List Strategy) :
    ResearchOutcome :=
  match (allPairs S company strategies).findSome? (fun p => pairResult S p.1 p.2) with
  | some (s, u) => { fact := s, source_url := u, confidence := true, found := true }
  | none => { fact := "", source_url := "", confidence := false, found := false }

/-! ### Concrete fixtures for counterexamples and witnesses -/

/-- A company with a well-formed website. -/
def companyAcme : Company :=
  { name := "Acme", websiteUrl := "https://acme.com"
    linkedinUrl := "https://linkedin.example/acme" }

/-- A company whose Website URL cell is blank. -/
def companyNoWeb : Company :=
  { name := "Acme", websiteUrl := "", linkedinUrl := "" }

/-- A single ordinary strategy. -/
def strategiesOne : List Strategy :=
  [{ query := "{company} news {domain}", researchPrompt := "Find one specific fact." }]

/-- Page text of 150 characters (just past the usable-content threshold). -/
def page150 : String := ⟨List.replicate 150 'a'⟩

/-- Fixture for C2: the model refuses the summary request with the
`NO:` protocol; the personalization model answers normally. -/
def fixC2 : Services :=
  { search := fun _ => [["https://acme.example/about"]]
    fetchPage := fun _ => some page150
    fetchTranscript := fun _ => none
    respond := fun _ _ model _ =>
      if model == SUMMARY_MODEL then .choices "NO: no relevant information found"
      else .choices "A fine personalized message." }

/-- Fixture for C1: candidate 1's content summarizes to the empty string
(accepted by the source's test), candidate 2 fails to fetch, candidate 3
carries a marker the model answers with a long fact. -/
def fixC1 : Services :=
  { search := fun _ =>
      [["https://a.example/1", "https://a.example/2", "https://a.example/3"]]
    fetchPage := fun u =>
      if u == "https://a.example/2" then none
      else if u == "https://a.example/3" then some ("MARKER3 " ++ page150)
      else some page150
    fetchTranscript := fun _ => none
    respond := fun up _ model _ =>
      if model == SUMMARY_MODEL then
        if strContains up "MARKER3" then
          .choices "An impressively detailed fact about the Acme company."
        else .choices ""
      else .choices "A fine personalized message." }

/-- Fixture for C4: the single candidate's summary is the empty string. -/
def fixC4 : Services :=
  { search := fun _ => [["https://a.example/1"]]
    fetchPage := fun _ => some page150
    fetchTranscript := fun _ => none
    respond := fun _ _ _ _ => .choices "" }

/-- Strategies for C3: the first template needs the domain, the second
does not mention it. -/
def strategiesC3 : List Strategy :=
  [{ query := "site:{domain} about", researchPrompt := "Extract the about-page fact." },
   { query := "news about {company}", researchPrompt := "Extract one news fact." }]

/-- Fixture for C3: every stage would succeed if reached. -/
def fixC3 : Services :=
  { search := fun _ => [["https://a.example/good"]]
    fetchPage := fun _ => some page150
    fetchTranscript := fun _ => none
    respond := fun _ _ _ _ =>
      .choices "A perfectly valid and sufficiently long company fact." }

/-- Fixture for C6: the summary model answers with a five-character
fact. -/
def fixC6 : Services :=
  { search := fun _ => [["https://a.example/1"]]
    fetchPage := fun _ => some page150
    fetchTranscript := fun _ => none
    respond := fun _ _ model _ =>
      if model == SUMMARY_MODEL then .choices "Tiny."
      else .choices "A fine personalized message." }

/-- The query actually sent for a strategy. -/
def queryFor (company : Company) (strat : Strategy) : String :=
  pyReplace (pyReplace strat.query "{company}" company.name) "{domain}"
    (extract_domain company.websiteUrl)

/-- State invariant of the research loop: a truthy summary always comes
with a non-empty source url, and an untouched summary (`None`, as opposed
to an adopted empty one) means the source url is untouched too. -/
def StateInv (rs su : Option String) : Prop :=
  (pyTruthy rs = true → ∃ u, su = some u ∧ ¬ u = "") ∧ (rs = none → su = none)

/-- Fixture for the C4 witness: the provider returns no result pages, so
the summary is never adopted at all. -/
def fixNoResults : Services :=
  { search := fun _ => []
    fetchPage := fun _ => none
    fetchTranscript := fun _ => none
    respond := fun _ _ _ _ => .choices "Irrelevant." }

/-- Page text of 140 characters (below the usable-content threshold). -/
def page140 : String := ⟨List.replicate 140 'a'⟩

/-- Fixture for the C5 witness: the first candidate's page is 140
characters, the second is 150. -/
def fixC5 : Services :=
  { search := fun _ => [["https://a.example/short", "https://a.example/ok"]]
    fetchPage := fun u => if u == "https://a.example/short" then some page140 else some page150
    fetchTranscript := fun _ => none
    respond := fun _ _ _ _ => .choices "A sufficiently informative fact about the company." }

/-- Fixture for the C9 witness: collaborators that answer every stage. -/
def fixC9 : Services :=
  { search := fun _ => [["https://a.example/article"]]
    fetchPage := fun _ => some page150
    fetchTranscript := fun _ => none
    respond := fun _ _ _ _ => .choices "A concrete and usable fact about this company." }

/-- Page text of 600 characters. -/
def page600 : String := ⟨List.replicate 600 'a'⟩

/-- Fixture for the C10 witness. -/
def fixC10 : Services :=
  { search := fun _ => [["https://a.example/long"]]
    fetchPage := fun _ => some page600
    fetchTranscript := fun _ => none
    respond := fun _ _ _ _ => .choices "Quite an informative summary of the long page." }

/-- Fixture for the C1 witness: candidate 1 fails to fetch, candidate 2
succeeds, and the summarizer never returns an empty string. -/
def fixC1W : Services :=
  { search := fun _ => [["https://b.example/1", "https://b.example/2"]]
    fetchPage := fun u => if u == "https://b.example/1" then none else some page150
    fetchTranscript := fun _ => none
    respond := fun _ _ _ _ => .choices "A thoroughly usable fact about the Acme company." }

/-! ### Helper lemmas -/

theorem findSome?_append_cases {α β : Type} (f : α → Option β) (l₁ l₂ : List α) :
    (l₁ ++ l₂).findSome? f =
      match l₁.findSome? f with
      | some b => some b
      | none => l₂.findSome? f := by
  induction l₁ with
  | nil => simp [List.findSome?]
  | cons a l ih =>
    simp only [List.cons_append, List.findSome?]
    cases f a <;> simp [ih]

theorem findSome?_mem {α β : Type} {f : α → Option β} {l : List α} {b : β}
    (h : l.findSome? f = some b) : ∃ a ∈ l, f a = some b := by
  induction l with
  | nil => simp [List.findSome?] at h
  | cons a l ih =>
    simp only [List.findSome?] at h
    cases hfa : f a with
    | some b' =>
      rw [hfa] at h
      refine ⟨a, List.mem_cons_self a l, ?_⟩
      rw [hfa]
      exact h
    | none =>
      rw [hfa] at h
      obtain ⟨a', ha', hfa'⟩ := ih h
      exact ⟨a', List.mem_cons_of_mem a ha', hfa'⟩

/-! ### Claims about the cache (C7, C8) -/

/-- C7: for every company key, a cache entry whose age strictly exceeds
the 30-day expiry window is treated by `get_cached_result` exactly as if
absent — the lookup returns `None` (it is total, so it neither raises nor
returns a negative result), and a subsequent `cache_result` of a fresh
resolution overwrites the stale entry at the company's key. -/
theorem cache_expired_entry_absent (hashKey : String → String)
    (store : String → Option CacheEntry) (name : String) (now : Int)
    (e : CacheEntry) (r : ResearchResult)
    (hstore : store (hashKey name) = some e)
    (hexp : CACHE_EXPIRY_DAYS * SECONDS_PER_DAY < now - e.timestamp) :
    get_cached_result hashKey store name now = none ∧
      cache_result hashKey store name r now (hashKey name) =
        some { fact := r.fact, source_url := r.source_url
               confidence := r.confidence, timestamp := now } := by
  constructor
  · unfold get_cached_result
    rw [hstore]
    have hlt : ¬ now - e.timestamp < CACHE_EXPIRY_DAYS * SECONDS_PER_DAY := by omega
    simp only [if_neg hlt]
  · unfold cache_result
    rw [if_pos rfl]

/-- Witness for C7: spec scenario E — a 40-day-old entry with a 30-day
window is invisible to `get` and overwritten by the fresh result. -/
theorem cache_expired_entry_absent_witness :
    get_cached_result id (fun _ => some ⟨"old fact", "https://old.example", true, 0⟩)
        "Acme" (40 * 86400) = none ∧
      cache_result id (fun _ => some ⟨"old fact", "https://old.example", true, 0⟩)
          "Acme" ⟨"new fact", "https://new.example", true⟩ (40 * 86400) (id "Acme") =
        some ⟨"new fact", "https://new.example", true, 40 * 86400⟩ :=
  cache_expired_entry_absent id _ "Acme" (40 * 86400)
    ⟨"old fact", "https://old.example", true, 0⟩
    ⟨"new fact", "https://new.example", true⟩ rfl (by decide)

/-- C8: `put(k, o)` followed immediately by `get(k)` (same instant, no
intervening writes) returns an outcome equal to `o` in all fields. -/
theorem cache_put_get_roundtrip (hashKey : String → String)
    (store : String → Option CacheEntry) (name : String)
    (r : ResearchResult) (now : Int) :
    get_cached_result hashKey (cache_result hashKey store name r now) name now = some r := by
  unfold get_cached_result cache_result
  rw [if_pos rfl]
  have hlt : now - now < CACHE_EXPIRY_DAYS * SECONDS_PER_DAY := by
    unfold CACHE_EXPIRY_DAYS SECONDS_PER_DAY
    omega
  simp only [if_pos hlt]

/-! ### C2: refusal handling is broken by a marker-format mismatch

`AIAssistantService.get_completion` reports a model refusal as the string
`AI_REFUSAL (<model text>)` (src/services/ai_assistant_service.py line
39), but `process_company` filters refusals with
`summary != "AI_REFUSAL"` (src/main.py line 121); the two never match, so
an explicit refusal is adopted as the research fact and flows into the
output record. -/

/-- C2 (failing input): with a summarizer model that refuses via the
prescribed `NO:` protocol, the resolver adopts the refusal-marker string
as the fact (`found = true`), and it appears as the record's research
summary — contradicting the claim that a refusal moves to the next
candidate and never appears in the output. -/
theorem refusal_marker_adopted_as_fact :
    (resolve fixC2 companyAcme strategiesOne).fact
        = "AI_REFUSAL (NO: no relevant information found)" ∧
      (resolve fixC2 companyAcme strategiesOne).found = true ∧
      (outputRowFor fixC2 "template" "master prompt" strategiesOne companyAcme).research_summary
        = "AI_REFUSAL (NO: no relevant information found)" := by decide

/-! ### C3: the domain check is unconditional

`process_company` extracts the domain and skips on a falsy result before
looking at the template at all (src/main.py lines 84-85), so a company
with no website loses every strategy, not only the ones whose template
needs `{domain}`. -/

/-- C3 (amended): for a company whose website yields no extractable
domain (in particular a company with no website), every strategy —
whether or not its template mentions `{domain}` — is skipped before any
SearchProvider call: the loop finishes with no events and an untouched
state, and resolution returns the all-empty not-found outcome. -/
theorem no_domain_skips_every_strategy (S : Services) (company : Company)
    (strategies : List Strategy)
    (h : extract_domain company.websiteUrl = "") :
    (∀ su, runStrategies S company strategies none su = (none, su, [])) ∧
      resolve S company strategies
        = { fact := "", source_url := "", confidence := false, found := false } := by
  have hmain : ∀ su, runStrategies S company strategies none su = (none, su, []) := by
    intro su
    induction strategies with
    | nil => rfl
    | cons strat rest ih =>
      rw [runStrategies]
      have hd : (extract_domain company.websiteUrl == "") = true := by
        rw [h]; rfl
      cases hq : strat.query == "" || strat.researchPrompt == "" with
      | true => simp only [pyTruthy, hq, Bool.false_eq_true, if_false, if_true]; exact ih
      | false => simp only [pyTruthy, hq, hd, Bool.false_eq_true, if_false, if_true]; exact ih
  refine ⟨hmain, ?_⟩
  unfold resolve resolveEv
  rw [hmain none]
  rfl

/-- Counterexample to C3 as stated: a company with a blank website and
the strategy list [S1 needs `{domain}`, S2 does not mention it], with
collaborators that would make S2 succeed.  No search call is made at all
(the event trace is empty) and resolution finds nothing — S2 is *not*
attempted — even though S2's candidate would have yielded a usable
fact. -/
theorem no_website_second_strategy_not_attempted :
    resolveEv fixC3 companyNoWeb strategiesC3 = (none, none, []) ∧
      (resolve fixC3 companyNoWeb strategiesC3).found = false ∧
      pairResult fixC3 "Extract one news fact." "https://a.example/good"
        = some ("A perfectly valid and sufficiently long company fact.",
            "https://a.example/good") := by decide

/-- Witness for the amended C3 at a concrete no-website company. -/
theorem no_domain_skips_every_strategy_witness :
    runStrategies fixC3 companyNoWeb strategiesC3 none none = (none, none, []) ∧
      resolve fixC3 companyNoWeb strategiesC3
        = { fact := "", source_url := "", confidence := false, found := false } :=
  ⟨(no_domain_skips_every_strategy fixC3 companyNoWeb strategiesC3 (by decide)).1 none,
   (no_domain_skips_every_strategy fixC3 companyNoWeb strategiesC3 (by decide)).2⟩

/-! ### Branch equations for the two loops -/

theorem runCandidates_break (S : Services) (p url : String) (rest : List String)
    (rs su : Option String) (h : pyTruthy rs = true) :
    runCandidates S p (url :: rest) rs su = (rs, su, []) := by
  rw [runCandidates, if_pos h]

theorem runCandidates_skipUrl (S : Services) (p url : String) (rest : List String)
    (rs su : Option String) (h : pyTruthy rs = false) (h2 : (url == "") = true) :
    runCandidates S p (url :: rest) rs su = runCandidates S p rest rs su := by
  rw [runCandidates, if_neg (by simp [h]), if_pos h2]

theorem runCandidates_noContent (S : Services) (p url : String) (rest : List String)
    (rs su : Option String) (h : pyTruthy rs = false) (h2 : (url == "") = false)
    (h3 : contentOf S url = none) :
    runCandidates S p (url :: rest) rs su = runCandidates S p rest rs su := by
  rw [runCandidates, if_neg (by simp [h]), if_neg (by simp [h2]), h3]

theorem runCandidates_short (S : Services) (p url : String) (rest : List String)
    (rs su : Option String) (c : String) (h : pyTruthy rs = false)
    (h2 : (url == "") = false) (h3 : contentOf S url = some c)
    (h4 : c.data.length < 150) :
    runCandidates S p (url :: rest) rs su = runCandidates S p rest rs su := by
  rw [runCandidates, if_neg (by simp [h]), if_neg (by simp [h2]), h3]
  simp only [if_pos h4]

theorem runCandidates_accepted (S : Services) (p url : String) (rest : List String)
    (rs su : Option String) (c : String) (h : pyTruthy rs = false)
    (h2 : (url == "") = false) (h3 : contentOf S url = some c)
    (h4 : ¬ c.data.length < 150) (h5 : acceptSummary (summaryFor S p c) = true) :
    runCandidates S p (url :: rest) rs su =
      (some (summaryFor S p c), some url, [.summarizeCall (userPromptFor p c) c]) := by
  rw [runCandidates, if_neg (by simp [h]), if_neg (by simp [h2]), h3]
  simp only [if_neg h4, if_pos h5]

theorem runCandidates_rejected (S : Services) (p url : String) (rest : List String)
    (rs su : Option String) (c : String) (h : pyTruthy rs = false)
    (h2 : (url == "") = false) (h3 : contentOf S url = some c)
    (h4 : ¬ c.data.length < 150) (h5 : acceptSummary (summaryFor S p c) = false) :
    runCandidates S p (url :: rest) rs su =
      ((runCandidates S p rest rs su).1, (runCandidates S p rest rs su).2.1,
        .summarizeCall (userPromptFor p c) c :: (runCandidates S p rest rs su).2.2) := by
  rw [runCandidates, if_neg (by simp [h]), if_neg (by simp [h2]), h3]
  simp only [if_neg h4, if_neg (by simp [h5] : ¬ acceptSummary (summaryFor S p c) = true)]

theorem runStrategies_break (S : Services) (company : Company) (strat : Strategy)
    (rest : List Strategy) (rs su : Option String) (h : pyTruthy rs = true) :
    runStrategies S company (strat :: rest) rs su = (rs, su, []) := by
  rw [runStrategies, if_pos h]

theorem runStrategies_skipConfig (S : Services) (company : Company) (strat : Strategy)
    (rest : List Strategy) (rs su : Option String) (h : pyTruthy rs = false)
    (h2 : (strat.query == "" || strat.researchPrompt == "") = true) :
    runStrategies S company (strat :: rest) rs su = runStrategies S company rest rs su := by
  rw [runStrategies, if_neg (by simp [h]), if_pos h2]

theorem runStrategies_skipDomain (S : Services) (company : Company) (strat : Strategy)
    (rest : List Strategy) (rs su : Option String) (h : pyTruthy rs = false)
    (h2 : (strat.query == "" || strat.researchPrompt == "") = false)
    (h3 : (extract_domain company.websiteUrl == "") = true) :
    runStrategies S company (strat :: rest) rs su = runStrategies S company rest rs su := by
  rw [runStrategies, if_neg (by simp [h]), if_neg (by simp [h2])]
  simp only [if_pos h3]

theorem runStrategies_noResults (S : Services) (company : Company) (strat : Strategy)
    (rest : List Strategy) (rs su : Option String) (h : pyTruthy rs = false)
    (h2 : (strat.query == "" || strat.researchPrompt == "") = false)
    (h3 : (extract_domain company.websiteUrl == "") = false)
    (h4 : S.search (queryFor company strat) = []) :
    runStrategies S company (strat :: rest) rs su =
      ((runStrategies S company rest rs su).1, (runStrategies S company rest rs su).2.1,
        .searchCall (queryFor company strat) :: (runStrategies S company rest rs su).2.2) := by
  rw [runStrategies, if_neg (by simp [h]), if_neg (by simp [h2])]
  simp only [if_neg (by simp [h3] : ¬ (extract_domain company.websiteUrl == "") = true)]
  rw [show pyReplace (pyReplace strat.query "{company}" company.name) "{domain}"
      (extract_domain company.websiteUrl) = queryFor company strat from rfl, h4]

theorem runStrategies_emptyPage (S : Services) (company : Company) (strat : Strategy)
    (rest : List Strategy) (rs su : Option String) (pages : List (List String))
    (h : pyTruthy rs = false)
    (h2 : (strat.query == "" || strat.researchPrompt == "") = false)
    (h3 : (extract_domain company.websiteUrl == "") = false)
    (h4 : S.search (queryFor company strat) = [] :: pages) :
    runStrategies S company (strat :: rest) rs su =
      ((runStrategies S company rest rs su).1, (runStrategies S company rest rs su).2.1,
        .searchCall (queryFor company strat) :: (runStrategies S company rest rs su).2.2) := by
  rw [runStrategies, if_neg (by simp [h]), if_neg (by simp [h2])]
  simp only [if_neg (by simp [h3] : ¬ (extract_domain company.websiteUrl == "") = true)]
  rw [show pyReplace (pyReplace strat.query "{company}" company.name) "{domain}"
      (extract_domain company.websiteUrl) = queryFor company strat from rfl, h4]
  simp only [List.isEmpty_nil, if_pos]

theorem runStrategies_live (S : Services) (company : Company) (strat : Strategy)
    (rest : List Strategy) (rs su : Option String) (page0 : List String)
    (pages : List (List String)) (h : pyTruthy rs = false)
    (h2 : (strat.query == "" || strat.researchPrompt == "") = false)
    (h3 : (extract_domain company.websiteUrl == "") = false)
    (h4 : S.search (queryFor company strat) = page0 :: pages)
    (h5 : page0.isEmpty = false) :
    runStrategies S company (strat :: rest) rs su =
      ((runStrategies S company rest
          (runCandidates S strat.researchPrompt (page0.take 3) rs su).1
          (runCandidates S strat.researchPrompt (page0.take 3) rs su).2.1).1,
        (runStrategies S company rest
          (runCandidates S strat.researchPrompt (page0.take 3) rs su).1
          (runCandidates S strat.researchPrompt (page0.take 3) rs su).2.1).2.1,
        .searchCall (queryFor company strat) ::
          ((runCandidates S strat.researchPrompt (page0.take 3) rs su).2.2 ++
            (runStrategies S company rest
              (runCandidates S strat.researchPrompt (page0.take 3) rs su).1
              (runCandidates S strat.researchPrompt (page0.take 3) rs su).2.1).2.2)) := by
  rw [runStrategies, if_neg (by simp [h]), if_neg (by simp [h2])]
  simp only [if_neg (by simp [h3] : ¬ (extract_domain company.websiteUrl == "") = true)]
  rw [show pyReplace (pyReplace strat.query "{company}" company.name) "{domain}"
      (extract_domain company.websiteUrl) = queryFor company strat from rfl, h4]
  simp only [h5, Bool.false_eq_true, if_false]

/-- Equation unfolding `resolve` to its components. -/
theorem resolve_eq (S : Services) (company : Company) (strategies : List Strategy) :
    resolve S company strategies =
      { fact := (resolveEv S company strategies).1.getD ""
        source_url := (resolveEv S company strategies).2.1.getD ""
        confidence := pyTruthy (resolveEv S company strategies).1
        found := pyTruthy (resolveEv S company strategies).1 } := rfl

/-! ### C4: the outcome invariant, and what exhaustion really leaves behind -/

theorem runCandidates_stateInv (S : Services) (prompt : String) :
    ∀ (urls : List String) (rs su : Option String), StateInv rs su →
      StateInv (runCandidates S prompt urls rs su).1 (runCandidates S prompt urls rs su).2.1 := by
  intro urls
  induction urls with
  | nil => intro rs su h; exact h
  | cons url rest ih =>
    intro rs su h
    cases hrs : pyTruthy rs with
    | true => rw [runCandidates_break S prompt url rest rs su hrs]; exact h
    | false =>
      cases hu : url == "" with
      | true => rw [runCandidates_skipUrl S prompt url rest rs su hrs hu]; exact ih rs su h
      | false =>
        cases hc : contentOf S url with
        | none => rw [runCandidates_noContent S prompt url rest rs su hrs hu hc]; exact ih rs su h
        | some c =>
          by_cases hlen : c.data.length < 150
          · rw [runCandidates_short S prompt url rest rs su c hrs hu hc hlen]; exact ih rs su h
          · cases hacc : acceptSummary (summaryFor S prompt c) with
            | true =>
              rw [runCandidates_accepted S prompt url rest rs su c hrs hu hc hlen hacc]
              refine ⟨fun _ => ⟨url, rfl, ?_⟩, fun hnone => by cases hnone⟩
              intro he
              rw [he] at hu
              simp at hu
            | false =>
              rw [runCandidates_rejected S prompt url rest rs su c hrs hu hc hlen hacc]
              exact ih rs su h

theorem runStrategies_stateInv (S : Services) (company : Company) :
    ∀ (strategies : List Strategy) (rs su : Option String), StateInv rs su →
      StateInv (runStrategies S company strategies rs su).1
        (runStrategies S company strategies rs su).2.1 := by
  intro strategies
  induction strategies with
  | nil => intro rs su h; exact h
  | cons strat rest ih =>
    intro rs su h
    cases hrs : pyTruthy rs with
    | true => rw [runStrategies_break S company strat rest rs su hrs]; exact h
    | false =>
      cases hq : strat.query == "" || strat.researchPrompt == "" with
      | true => rw [runStrategies_skipConfig S company strat rest rs su hrs hq]; exact ih rs su h
      | false =>
        cases hd : extract_domain company.websiteUrl == "" with
        | true =>
          rw [runStrategies_skipDomain S company strat rest rs su hrs hq hd]
          exact ih rs su h
        | false =>
          cases hres : S.search (queryFor company strat) with
          | nil =>
            rw [runStrategies_noResults S company strat rest rs su hrs hq hd hres]
            exact ih rs su h
          | cons page0 pages =>
            cases hp : page0.isEmpty with
            | true =>
              rw [List.isEmpty_iff] at hp
              subst hp
              rw [runStrategies_emptyPage S company strat rest rs su pages hrs hq hd hres]
              exact ih rs su h
            | false =>
              rw [runStrategies_live S company strat rest rs su page0 pages hrs hq hd hres hp]
              exact ih _ _ (runCandidates_stateInv S strat.researchPrompt (page0.take 3) rs su h)

/-- C4 (amended): for every outcome of resolution, `found` holds iff
`fact` and `source_url` are both non-empty, and `found = false` forces
`fact = ""` and `confidence = false`; moreover, when the loop finishes
with the summary never adopted (`research_summary` still `None`), the
outcome is the all-empty `{fact="", source_url="", confidence=false,
found=false}` and no exception is raised (the resolver is total).  The
original claim's stronger clause — that *any* exhaustion without a usable
fact leaves `source_url` empty — fails: a candidate whose accepted
summary is the empty string leaves its URL in `source_url` (see the
counterexample). -/
theorem outcome_found_invariant (S : Services) (company : Company)
    (strategies : List Strategy) :
    ((resolve S company strategies).found = true ↔
        (¬ (resolve S company strategies).fact = "" ∧
          ¬ (resolve S company strategies).source_url = "")) ∧
      ((resolve S company strategies).found = false →
        (resolve S company strategies).fact = "" ∧
          (resolve S company strategies).confidence = false) ∧
      ((resolveEv S company strategies).1 = none →
        resolve S company strategies
          = { fact := "", source_url := "", confidence := false, found := false }) := by
  have hinv : StateInv (resolveEv S company strategies).1 (resolveEv S company strategies).2.1 :=
    runStrategies_stateInv S company strategies none none
      ⟨fun h => by simp [pyTruthy] at h, fun _ => rfl⟩
  rw [resolve_eq]
  refine ⟨?_, ?_, ?_⟩
  · constructor
    · intro hf
      simp only at hf
      obtain ⟨u, hu, hune⟩ := hinv.1 hf
      cases h1 : (resolveEv S company strategies).1 with
      | none => rw [h1] at hf; simp [pyTruthy] at hf
      | some s =>
        rw [h1] at hf
        simp only [pyTruthy] at hf
        constructor
        · simp only [h1, Option.getD_some]
          intro he
          rw [he] at hf
          simp at hf
        · simp only [hu, Option.getD_some]
          exact hune
    · rintro ⟨hfact, _⟩
      simp only at hfact ⊢
      cases h1 : (resolveEv S company strategies).1 with
      | none => rw [h1] at hfact; simp at hfact
      | some s =>
        rw [h1] at hfact
        simp only [Option.getD_some] at hfact
        simp [pyTruthy, hfact]
  · intro hf
    simp only at hf ⊢
    cases h1 : (resolveEv S company strategies).1 with
    | none => simp [h1, pyTruthy]
    | some s =>
      rw [h1] at hf
      simp only [pyTruthy] at hf
      refine ⟨?_, ?_⟩
      · simp only [h1, Option.getD_some]
        simpa using hf
      · simp [pyTruthy, h1, hf]
  · intro h1
    have hsu := hinv.2 h1
    simp [h1, hsu, pyTruthy]

/-- Counterexample to C4 as stated: with a summarizer that answers the
single candidate with the empty string, resolution is exhausted without a
usable fact and raises nothing, yet the returned `source_url` is the
candidate's URL, not empty/None. -/
theorem exhausted_outcome_keeps_source_url :
    (resolve fixC4 companyAcme strategiesOne).found = false ∧
      (resolve fixC4 companyAcme strategiesOne).fact = "" ∧
      (resolve fixC4 companyAcme strategiesOne).source_url = "https://a.example/1" := by
  decide

/-- Witness for C4: at a concrete fully-failing input, the never-adopted
branch of the theorem yields the all-empty outcome. -/
theorem outcome_found_invariant_witness :
    resolve fixNoResults companyAcme strategiesOne
      = { fact := "", source_url := "", confidence := false, found := false } :=
  (outcome_found_invariant fixNoResults companyAcme strategiesOne).2.2 (by decide)

/-! ### C5: the minimum-content gate -/

/-- C5: a candidate whose content is absent, or present but shorter than
150 characters, is treated exactly like a fetch failure — the whole loop
result is the same as if the candidate were not there (in particular no
summarizer call is recorded for it) and the loop proceeds with the next
candidate; content of length 150 or more reaches the summarizer (the
events of the run start with that candidate's summarize call). -/
theorem short_or_missing_content_skipped (S : Services) (researchPrompt : String)
    (rs su : Option String) (url : String) (rest : List String)
    (hrs : pyTruthy rs = false) (hurl : (url == "") = false) :
    ((∀ c, contentOf S url = some c → c.data.length < 150) →
        runCandidates S researchPrompt (url :: rest) rs su
          = runCandidates S researchPrompt rest rs su) ∧
      (∀ c, contentOf S url = some c → 150 ≤ c.data.length →
        ∃ tail, (runCandidates S researchPrompt (url :: rest) rs su).2.2
          = Event.summarizeCall (userPromptFor researchPrompt c) c :: tail) := by
  constructor
  · intro hshort
    cases hc : contentOf S url with
    | none => exact runCandidates_noContent S researchPrompt url rest rs su hrs hurl hc
    | some c =>
      exact runCandidates_short S researchPrompt url rest rs su c hrs hurl hc (hshort c hc)
  · intro c hc hlen
    have h4 : ¬ c.data.length < 150 := by omega
    cases hacc : acceptSummary (summaryFor S researchPrompt c) with
    | true =>
      rw [runCandidates_accepted S researchPrompt url rest rs su c hrs hurl hc h4 hacc]
      exact ⟨[], rfl⟩
    | false =>
      rw [runCandidates_rejected S researchPrompt url rest rs su c hrs hurl hc h4 hacc]
      exact ⟨_, rfl⟩

/-- Witness for C5 (spec scenario B): the 140-character candidate drops
out with no summarizer call, the 150-character candidate is summarized. -/
theorem short_or_missing_content_skipped_witness :
    runCandidates fixC5 "Find a fact." ["https://a.example/short", "https://a.example/ok"]
        none none
      = runCandidates fixC5 "Find a fact." ["https://a.example/ok"] none none ∧
      ∃ tail, (runCandidates fixC5 "Find a fact." ["https://a.example/ok"] none none).2.2
        = Event.summarizeCall (userPromptFor "Find a fact." page150) page150 :: tail := by
  constructor
  · refine (short_or_missing_content_skipped fixC5 "Find a fact." none none
      "https://a.example/short" ["https://a.example/ok"] rfl (by decide)).1 ?_
    intro c hc
    have h' : contentOf fixC5 "https://a.example/short" = some page140 := by decide
    rw [h'] at hc
    cases hc
    decide
  · exact (short_or_missing_content_skipped fixC5 "Find a fact." none none
      "https://a.example/ok" [] rfl (by decide)).2 page150 (by decide) (by decide)

/-! ### C6: the acceptance condition has no length gate -/

/-- C6 (amended): at a live candidate with usable content, the summarizer
response is adopted (with its URL, ending the candidate loop) iff it does
not contain the substring `Error:` and differs from the exact string
`AI_REFUSAL`; any other response — regardless of its length, including
empty and ≤20-character responses — is adopted, and a response failing
the test moves the loop to the next candidate.  The >20-character quality
gate of the claim exists only in the legacy
`research_company`/`summarize_with_gpt35` draft, not in the resolver
under src/main.py. -/
theorem summary_acceptance_characterized (S : Services) (researchPrompt : String)
    (rs su : Option String) (url : String) (rest : List String) (c : String)
    (hrs : pyTruthy rs = false) (hurl : (url == "") = false)
    (hc : contentOf S url = some c) (hlen : ¬ c.data.length < 150) :
    ((strContains (summaryFor S researchPrompt c) "Error:" = false ∧
        ¬ summaryFor S researchPrompt c = "AI_REFUSAL") →
      runCandidates S researchPrompt (url :: rest) rs su
        = (some (summaryFor S researchPrompt c), some url,
            [.summarizeCall (userPromptFor researchPrompt c) c])) ∧
      ((strContains (summaryFor S researchPrompt c) "Error:" = true ∨
          summaryFor S researchPrompt c = "AI_REFUSAL") →
        runCandidates S researchPrompt (url :: rest) rs su
          = ((runCandidates S researchPrompt rest rs su).1,
              (runCandidates S researchPrompt rest rs su).2.1,
              .summarizeCall (userPromptFor researchPrompt c) c
                :: (runCandidates S researchPrompt rest rs su).2.2)) := by
  constructor
  · rintro ⟨h1, h2⟩
    refine runCandidates_accepted S researchPrompt url rest rs su c hrs hurl hc hlen ?_
    unfold acceptSummary
    simp [h1, h2]
  · intro hrej
    refine runCandidates_rejected S researchPrompt url rest rs su c hrs hurl hc hlen ?_
    unfold acceptSummary
    rcases hrej with h1 | h1
    · simp [h1]
    · simp [h1]

/-- Counterexample to C6 as stated: the five-character response `Tiny.`
(non-empty, no marker, but not longer than 20 characters) is adopted as
the research fact — there is no minimum-length quality gate in the
resolver. -/
theorem short_summary_adopted :
    (resolve fixC6 companyAcme strategiesOne).fact = "Tiny." ∧
      (resolve fixC6 companyAcme strategiesOne).found = true ∧
      pyLen "Tiny." ≤ 20 ∧
      strContains "Tiny." "Error:" = false ∧
      ¬ "Tiny." = "AI_REFUSAL" := by decide

/-- Witness for the amended C6 at the concrete `Tiny.` fixture. -/
theorem summary_acceptance_characterized_witness :
    runCandidates fixC6 "Find one specific fact." ["https://a.example/1"] none none
      = (some (summaryFor fixC6 "Find one specific fact." page150),
          some "https://a.example/1",
          [Event.summarizeCall (userPromptFor "Find one specific fact." page150) page150]) :=
  (summary_acceptance_characterized fixC6 "Find one specific fact." none none
      "https://a.example/1" [] page150 rfl (by decide) (by decide) (by decide)).1
    ⟨by decide, by decide⟩

/-! ### C9: closed status set, one record per processed company -/

theorem process_company_status_cases (S : Services) (template masterPrompt : String)
    (company : Company) (strategies : List Strategy) :
    (process_company S template masterPrompt company strategies).status = STATUS_PERSONALIZED ∨
      (process_company S template masterPrompt company strategies).status = STATUS_PERS_FAILED ∨
      (process_company S template masterPrompt company strategies).status = STATUS_NO_SOURCE := by
  simp only [process_company]
  split
  · split
    · left; rfl
    · right; left; rfl
  · right; right; rfl

/-- C9: every company surviving the caller's missing-data gate produces
exactly one output record (one per filtered company, in order); every
record's status is one of the three closed values `✓ Personalized`,
`⚠️ Personalization Failed`, `❌ No source summarized` (the spec's
`Personalized | PersonalizationFailed | NoSourceFound`); and processing
is per-company — the records of the companies before and after any given
company are produced identically whatever happens for that company, so no
per-company failure can abort the rest of the run (the pipeline is a
total function mapped over the companies). -/
theorem pipeline_closed_statuses_and_isolation (S : Services)
    (template masterPromptRaw : String) (strategies : List Strategy) :
    (∀ companies : List Company,
        (runPipeline S template masterPromptRaw companies strategies).length
          = (companies.filter fun c => !(c.name == "") && !(c.websiteUrl == "")).length) ∧
      (∀ (companies : List Company) (r : OutputRecord),
        r ∈ runPipeline S template masterPromptRaw companies strategies →
          r.status = STATUS_PERSONALIZED ∨ r.status = STATUS_PERS_FAILED ∨
            r.status = STATUS_NO_SOURCE) ∧
      (∀ (cs₁ : List Company) (c : Company) (cs₂ : List Company),
        runPipeline S template masterPromptRaw (cs₁ ++ c :: cs₂) strategies
          = runPipeline S template masterPromptRaw cs₁ strategies
            ++ runPipeline S template masterPromptRaw [c] strategies
            ++ runPipeline S template masterPromptRaw cs₂ strategies) := by
  refine ⟨?_, ?_, ?_⟩
  · intro companies
    unfold runPipeline
    simp
  · intro companies r hr
    unfold runPipeline at hr
    simp only [List.mem_map] at hr
    obtain ⟨comp, _, hcomp⟩ := hr
    rw [← hcomp]
    exact process_company_status_cases S template
      (pyReplace masterPromptRaw "{Name}" "the recipient") comp strategies
  · intro cs₁ c cs₂
    unfold runPipeline
    rw [show (c :: cs₂) = [c] ++ cs₂ from rfl, List.filter_append, List.filter_append,
      List.map_append, List.map_append]
    simp [List.append_assoc]

/-- Witness for C9 at a concrete one-company run. -/
theorem pipeline_closed_statuses_witness :
    (outputRowFor fixC9 "Template." (pyReplace "Master {Name} prompt." "{Name}" "the recipient")
          strategiesOne companyAcme).status = STATUS_PERSONALIZED ∨
      (outputRowFor fixC9 "Template." (pyReplace "Master {Name} prompt." "{Name}" "the recipient")
          strategiesOne companyAcme).status = STATUS_PERS_FAILED ∨
      (outputRowFor fixC9 "Template." (pyReplace "Master {Name} prompt." "{Name}" "the recipient")
          strategiesOne companyAcme).status = STATUS_NO_SOURCE :=
  (pipeline_closed_statuses_and_isolation fixC9 "Template." "Master {Name} prompt."
      strategiesOne).2.1 [companyAcme] _ (by decide)

/-! ### C10: everything submitted to the summarizer is truncated to 7000 -/

theorem pyTake7000_length_le (f : Option String) (c : String)
    (h : f.map (fun t => pyTake t 7000) = some c) : c.data.length ≤ 7000 := by
  cases f with
  | none => cases h
  | some t =>
    have hc : pyTake t 7000 = c := by simpa using h
    rw [← hc]
    unfold pyTake
    rw [show (⟨t.data.take 7000⟩ : String).data = t.data.take 7000 from rfl, List.length_take]
    exact min_le_left _ _

theorem contentOf_length_le (S : Services) (url c : String)
    (h : contentOf S url = some c) : c.data.length ≤ 7000 := by
  unfold contentOf at h
  cases hv : get_video_id url with
  | none =>
    rw [hv] at h
    exact pyTake7000_length_le (S.fetchPage url) c h
  | some v =>
    rw [hv] at h
    have h2 : (if (v == "") = true then scrape_page_content S.fetchPage url
        else get_youtube_transcript S.fetchTranscript v) = some c := h
    by_cases hveq : (v == "") = true
    · rw [if_pos hveq] at h2
      exact pyTake7000_length_le (S.fetchPage url) c h2
    · rw [if_neg hveq] at h2
      exact pyTake7000_length_le (S.fetchTranscript v) c h2

theorem runCandidates_summarize_bound (S : Services) (p : String) :
    ∀ (urls : List String) (rs su : Option String) (up c : String),
      Event.summarizeCall up c ∈ (runCandidates S p urls rs su).2.2 →
      c.data.length ≤ 7000 := by
  intro urls
  induction urls with
  | nil => intro rs su up c h; simp [runCandidates] at h
  | cons url rest ih =>
    intro rs su up c h
    cases hrs : pyTruthy rs with
    | true => rw [runCandidates_break S p url rest rs su hrs] at h; simp at h
    | false =>
      cases hu : url == "" with
      | true =>
        rw [runCandidates_skipUrl S p url rest rs su hrs hu] at h
        exact ih rs su up c h
      | false =>
        cases hc : contentOf S url with
        | none =>
          rw [runCandidates_noContent S p url rest rs su hrs hu hc] at h
          exact ih rs su up c h
        | some c0 =>
          by_cases hlen : c0.data.length < 150
          · rw [runCandidates_short S p url rest rs su c0 hrs hu hc hlen] at h
            exact ih rs su up c h
          · have hbound := contentOf_length_le S url c0 hc
            cases hacc : acceptSummary (summaryFor S p c0) with
            | true =>
              rw [runCandidates_accepted S p url rest rs su c0 hrs hu hc hlen hacc] at h
              rw [List.mem_singleton] at h
              injection h with h1 h2
              rw [h2]
              exact hbound
            | false =>
              rw [runCandidates_rejected S p url rest rs su c0 hrs hu hc hlen hacc] at h
              rw [List.mem_cons] at h
              rcases h with h | h
              · injection h with h1 h2
                rw [h2]
                exact hbound
              · exact ih rs su up c h

theorem runStrategies_summarize_bound (S : Services) (company : Company) :
    ∀ (strategies : List Strategy) (rs su : Option String) (up c : String),
      Event.summarizeCall up c ∈ (runStrategies S company strategies rs su).2.2 →
      c.data.length ≤ 7000 := by
  intro strategies
  induction strategies with
  | nil => intro rs su up c h; simp [runStrategies] at h
  | cons strat rest ih =>
    intro rs su up c h
    cases hrs : pyTruthy rs with
    | true => rw [runStrategies_break S company strat rest rs su hrs] at h; simp at h
    | false =>
      cases hq : strat.query == "" || strat.researchPrompt == "" with
      | true =>
        rw [runStrategies_skipConfig S company strat rest rs su hrs hq] at h
        exact ih rs su up c h
      | false =>
        cases hd : extract_domain company.websiteUrl == "" with
        | true =>
          rw [runStrategies_skipDomain S company strat rest rs su hrs hq hd] at h
          exact ih rs su up c h
        | false =>
          cases hres : S.search (queryFor company strat) with
          | nil =>
            rw [runStrategies_noResults S company strat rest rs su hrs hq hd hres] at h
            rw [List.mem_cons] at h
            rcases h with h | h
            · cases h
            · exact ih rs su up c h
          | cons page0 pages =>
            cases hp : page0.isEmpty with
            | true =>
              rw [List.isEmpty_iff] at hp
              subst hp
              rw [runStrategies_emptyPage S company strat rest rs su pages hrs hq hd hres] at h
              rw [List.mem_cons] at h
              rcases h with h | h
              · cases h
              · exact ih rs su up c h
            | false =>
              rw [runStrategies_live S company strat rest rs su page0 pages hrs hq hd hres hp] at h
              rw [List.mem_cons, List.mem_append] at h
              rcases h with h | h | h
              · cases h
              · exact runCandidates_summarize_bound S strat.researchPrompt (page0.take 3)
                  rs su up c h
              · exact ih _ _ up c h

/-- C10: every content string handed to a summarizer call during
resolution has at most 7000 characters — both content helpers truncate
with `[:7000]` before the resolver can submit anything, whatever the size
of the fetched page or transcript. -/
theorem summarizer_content_truncated (S : Services) (company : Company)
    (strategies : List Strategy) (up c : String)
    (h : Event.summarizeCall up c ∈ (resolveEv S company strategies).2.2) :
    c.data.length ≤ 7000 :=
  runStrategies_summarize_bound S company strategies none none up c h

/-- Witness for C10: a concrete summarizer call falls under the 7000
character bound. -/
theorem summarizer_content_truncated_witness :
    Event.summarizeCall (userPromptFor "Find one specific fact." (pyTake page600 7000))
        (pyTake page600 7000) ∈ (resolveEv fixC10 companyAcme strategiesOne).2.2 ∧
      (pyTake page600 7000).data.length ≤ 7000 :=
  ⟨by decide,
    summarizer_content_truncated fixC10 companyAcme strategiesOne
      (userPromptFor "Find one specific fact." (pyTake page600 7000))
      (pyTake page600 7000) (by decide)⟩

/-! ### C1: first-success semantics of the resolver -/

theorem findSome?_map_comp {α β γ : Type} (g : α → β) (f : β → Option γ) (l : List α) :
    (l.map g).findSome? f = l.findSome? (fun a => f (g a)) := by
  induction l with
  | nil => rfl
  | cons a l ih =>
    simp only [List.map_cons, List.findSome?]
    cases f (g a) <;> simp [ih]

theorem runStrategies_truthy (S : Services) (company : Company) :
    ∀ (strategies : List Strategy) (rs su : Option String), pyTruthy rs = true →
      runStrategies S company strategies rs su = (rs, su, []) := by
  intro strategies rs su h
  cases strategies with
  | nil => rfl
  | cons strat rest => exact runStrategies_break S company strat rest rs su h

theorem pairResult_some_elim (S : Services) (prompt url s u : String)
    (h : pairResult S prompt url = some (s, u)) :
    ∃ c, contentOf S url = some c ∧ ¬ c.data.length < 150 ∧
      acceptSummary (summaryFor S prompt c) = true ∧ s = summaryFor S prompt c ∧ u = url := by
  unfold pairResult at h
  cases hc : contentOf S url with
  | none => rw [hc] at h; cases h
  | some c =>
    rw [hc] at h
    have h2 : (if c.data.length < 150 then none
        else if acceptSummary (summaryFor S prompt c) = true
          then some (summaryFor S prompt c, url) else none) = some (s, u) := h
    by_cases hlen : c.data.length < 150
    · rw [if_pos hlen] at h2; cases h2
    · rw [if_neg hlen] at h2
      by_cases hacc : acceptSummary (summaryFor S prompt c) = true
      · rw [if_pos hacc] at h2
        obtain ⟨hs, hu⟩ := Prod.mk.injEq .. ▸ Option.some.inj h2
        exact ⟨c, rfl, hlen, hacc, hs.symm, hu.symm⟩
      · rw [if_neg hacc] at h2; cases h2

theorem pairResult_rejected (S : Services) (prompt url c : String)
    (hc : contentOf S url = some c) (hlen : ¬ c.data.length < 150)
    (hpr : pairResult S prompt url = none) :
    acceptSummary (summaryFor S prompt c) = false := by
  cases hq : acceptSummary (summaryFor S prompt c) with
  | false => rfl
  | true =>
    have : pairResult S prompt url = some (summaryFor S prompt c, url) := by
      unfold pairResult
      rw [hc]
      show (if c.data.length < 150 then none
        else if acceptSummary (summaryFor S prompt c) = true
          then some (summaryFor S prompt c, url) else none) = _
      rw [if_neg hlen, if_pos hq]
    rw [hpr] at this
    cases this

/-- The candidate loop started on a falsy summary state is the flat
first-success scan over its (non-empty) candidate urls. -/
theorem runCandidates_falsy_spec (S : Services) (p : String) :
    ∀ (urls : List String) (rs su : Option String), pyTruthy rs = false →
      ((runCandidates S p urls rs su).1, (runCandidates S p urls rs su).2.1)
        = match (urls.filter fun u => !(u == "")).findSome? (fun u => pairResult S p u) with
          | some (s, u) => (some s, some u)
          | none => (rs, su) := by
  intro urls
  induction urls with
  | nil => intro rs su hrs; rfl
  | cons url rest ih =>
    intro rs su hrs
    cases hu : url == "" with
    | true =>
      rw [runCandidates_skipUrl S p url rest rs su hrs hu]
      have hfil : (url :: rest).filter (fun u => !(u == ""))
          = rest.filter (fun u => !(u == "")) := by
        simp [List.filter_cons, hu]
      rw [hfil]
      exact ih rs su hrs
    | false =>
      have hfil : (url :: rest).filter (fun u => !(u == ""))
          = url :: rest.filter (fun u => !(u == "")) := by
        simp [List.filter_cons, hu]
      rw [hfil]
      cases hpr : pairResult S p url with
      | some pr =>
        obtain ⟨s0, u0⟩ := pr
        obtain ⟨c, hc, hlen, hacc, hs, hu0⟩ := pairResult_some_elim S p url s0 u0 hpr
        rw [runCandidates_accepted S p url rest rs su c hrs hu hc hlen hacc]
        simp only [List.findSome?, hpr]
        rw [hs, hu0]
      | none =>
        cases hc : contentOf S url with
        | none =>
          rw [runCandidates_noContent S p url rest rs su hrs hu hc]
          simp only [List.findSome?, hpr]
          exact ih rs su hrs
        | some c =>
          by_cases hlen : c.data.length < 150
          · rw [runCandidates_short S p url rest rs su c hrs hu hc hlen]
            simp only [List.findSome?, hpr]
            exact ih rs su hrs
          · have hacc := pairResult_rejected S p url c hc hlen hpr
            rw [runCandidates_rejected S p url rest rs su c hrs hu hc hlen hacc]
            simp only [List.findSome?, hpr]
            exact ih rs su hrs

/-- The strategy loop started from the initial `None` summary is the flat
first-success scan over all (strategy, candidate) pairs, provided the
summarizer never produces the empty string. -/
theorem runStrategies_none_spec (S : Services) (company : Company)
    (hne : ∀ p c, ¬ summaryFor S p c = "") :
    ∀ (strategies : List Strategy) (su : Option String),
      ((runStrategies S company strategies none su).1,
          (runStrategies S company strategies none su).2.1)
        = match (allPairs S company strategies).findSome?
              (fun pr => pairResult S pr.1 pr.2) with
          | some (s, u) => (some s, some u)
          | none => (none, su) := by
  intro strategies
  induction strategies with
  | nil => intro su; rfl
  | cons strat rest ih =>
    intro su
    have hrs : pyTruthy (none : Option String) = false := rfl
    have hall : allPairs S company (strat :: rest)
        = strategyPairs S company strat ++ allPairs S company rest := rfl
    cases hq : strat.query == "" || strat.researchPrompt == "" with
    | true =>
      rw [runStrategies_skipConfig S company strat rest none su hrs hq]
      have hsp : strategyPairs S company strat = [] := by
        unfold strategyPairs
        rw [if_pos hq]
      rw [hall, hsp, List.nil_append]
      exact ih su
    | false =>
      cases hd : extract_domain company.websiteUrl == "" with
      | true =>
        rw [runStrategies_skipDomain S company strat rest none su hrs hq hd]
        have hsp : strategyPairs S company strat = [] := by
          unfold strategyPairs
          rw [if_neg (by simp [hq])]
          show (if (extract_domain company.websiteUrl == "") = true then [] else _) = []
          rw [if_pos hd]
        rw [hall, hsp, List.nil_append]
        exact ih su
      | false =>
        cases hres : S.search (queryFor company strat) with
        | nil =>
          rw [hall]
          have hsp : strategyPairs S company strat = [] := by
            unfold strategyPairs
            rw [if_neg (by simp [hq])]
            show (if (extract_domain company.websiteUrl == "") = true then []
              else match S.search (queryFor company strat) with
                | [] => []
                | page0 :: _ => ((page0.take 3).filter fun u => !(u == "")).map
                    fun u => (strat.researchPrompt, u)) = []
            rw [if_neg (by simp [hd]), hres]
          rw [hsp, List.nil_append]
          rw [runStrategies_noResults S company strat rest none su hrs hq hd hres]
          exact ih su
        | cons page0 pages =>
          have hsp : strategyPairs S company strat
              = ((page0.take 3).filter fun u => !(u == "")).map
                  fun u => (strat.researchPrompt, u) := by
            unfold strategyPairs
            rw [if_neg (by simp [hq])]
            show (if (extract_domain company.websiteUrl == "") = true then []
              else match S.search (queryFor company strat) with
                | [] => []
                | page0 :: _ => ((page0.take 3).filter fun u => !(u == "")).map
                    fun u => (strat.researchPrompt, u)) = _
            rw [if_neg (by simp [hd]), hres]
          cases hp : page0.isEmpty with
          | true =>
            rw [List.isEmpty_iff] at hp
            subst hp
            rw [hall, hsp]
            rw [runStrategies_emptyPage S company strat rest none su pages hrs hq hd hres]
            simp only [List.take_nil, List.filter_nil, List.map_nil, List.nil_append]
            exact ih su
          | false =>
            rw [runStrategies_live S company strat rest none su page0 pages hrs hq hd hres hp]
            have hA := runCandidates_falsy_spec S strat.researchPrompt (page0.take 3) none su rfl
            rw [hall, hsp, findSome?_append_cases, findSome?_map_comp]
            cases hfind : ((page0.take 3).filter fun u => !(u == "")).findSome?
                (fun u => pairResult S strat.researchPrompt u) with
            | some pr =>
              obtain ⟨s0, u0⟩ := pr
              rw [hfind] at hA
              have h1 := congrArg Prod.fst hA
              have h2 := congrArg Prod.snd hA
              simp only at h1 h2
              obtain ⟨u', hmem, hpru⟩ := findSome?_mem hfind
              obtain ⟨c, _, _, _, hs, _⟩ :=
                pairResult_some_elim S strat.researchPrompt u' s0 u0 hpru
              have hs0 : ¬ s0 = "" := by rw [hs]; exact hne _ _
              rw [h1, h2, runStrategies_truthy S company rest (some s0) (some u0)
                (by simp [pyTruthy, hs0])]
            | none =>
              rw [hfind] at hA
              have h1 := congrArg Prod.fst hA
              have h2 := congrArg Prod.snd hA
              simp only at h1 h2
              rw [h1, h2]
              simp only [hfind]
              exact ih su

/-- C1 (amended): provided the summarizer never answers any summary
request with the empty string, `resolve` returns exactly the outcome of
the first (strategy, candidate) pair — strategies in the given order,
then the first result page's top three candidates in provider order —
whose candidate yields an accepted summary, and never a later one; in
particular, when the first two candidates of a strategy fail and the
third succeeds, the third candidate's URL is returned and no later
strategy is attempted.  The proviso is forced by the counterexample: an
accepted *empty* summary ends that strategy's candidate loop as a
success, which the outer loop then treats as no result, skipping the
strategy's remaining candidates. -/
theorem resolver_returns_first_success (S : Services) (company : Company)
    (strategies : List Strategy) (hne : ∀ p c, ¬ summaryFor S p c = "") :
    resolve S company strategies = specResolve S company strategies := by
  rw [resolve_eq]
  unfold specResolve
  have hB := runStrategies_none_spec S company hne strategies none
  have hEv : resolveEv S company strategies = runStrategies S company strategies none none := rfl
  cases hfind : (allPairs S company strategies).findSome?
      (fun pr => pairResult S pr.1 pr.2) with
  | some pr =>
    obtain ⟨s0, u0⟩ := pr
    rw [hfind] at hB
    have h1 := congrArg Prod.fst hB
    have h2 := congrArg Prod.snd hB
    simp only at h1 h2
    obtain ⟨u', hmem, hpru⟩ := findSome?_mem hfind
    obtain ⟨c, _, _, _, hs, _⟩ := pairResult_some_elim S u'.1 u'.2 s0 u0 hpru
    have hs0 : ¬ s0 = "" := by rw [hs]; exact hne _ _
    rw [hEv, h1, h2]
    simp [pyTruthy, hs0]
  | none =>
    rw [hfind] at hB
    have h1 := congrArg Prod.fst hB
    have h2 := congrArg Prod.snd hB
    simp only at h1 h2
    rw [hEv, h1, h2]
    rfl

/-- Counterexample to C1 as stated: candidate 1 of the only strategy
yields the empty accepted summary (not a usable fact), candidate 2 fails
to fetch, candidate 3 would yield a usable fact — yet the resolver
reports candidate 1's URL with nothing found, never reaching candidate 3. -/
theorem third_candidate_success_not_returned :
    summaryFor fixC1 "Find one specific fact." page150 = "" ∧
      contentOf fixC1 "https://a.example/2" = none ∧
      pairResult fixC1 "Find one specific fact." "https://a.example/3"
        = some ("An impressively detailed fact about the Acme company.",
            "https://a.example/3") ∧
      (resolve fixC1 companyAcme strategiesOne).source_url = "https://a.example/1" ∧
      (resolve fixC1 companyAcme strategiesOne).found = false := by decide

/-- Witness for the amended C1 (spec scenario C): the failing first
candidate is skipped and the second candidate's outcome — exactly the
first succeeding pair of the flat scan — is returned. -/
theorem resolver_returns_first_success_witness :
    resolve fixC1W companyAcme strategiesOne = specResolve fixC1W companyAcme strategiesOne ∧
      resolve fixC1W companyAcme strategiesOne
        = { fact := "A thoroughly usable fact about the Acme company."
            source_url := "https://b.example/2", confidence := true, found := true } :=
  ⟨resolver_returns_first_success fixC1W companyAcme strategiesOne
      (fun p c => by
        have h : summaryFor fixC1W p c
            = "A thoroughly usable fact about the Acme company." := rfl
        rw [h]
        decide),
    by decide⟩

end AIPers
